import Mathlib

/-!
Shallow embedding of the Manila CSI driver operator controller
(pkg/controllers/manila/manila.go).

Go string maps are modelled as association lists with unique keys;
map equality (reflect.DeepEqual on maps) is key-wise lookup equality.
External collaborators (the OpenStack probe, the storage-class lister,
the Kubernetes API client, the operator status client) are modelled by
an explicit environment, and the controller's externally visible calls
are recorded in an operation trace.
-/

namespace Manila

/-- Lookup of a key in an association list modelling a Go string map. -/
def lookupKey (k : String) : List (String × String) → Option String
  | [] => none
  | p :: rest => if p.1 = k then some p.2 else lookupKey k rest

/-- Remove every binding of a key from an association list. -/
def removeKey : List (String × String) → String → List (String × String)
  | [], _ => []
  | p :: rest, k => if p.1 = k then removeKey rest k else p :: removeKey rest k

/-- Map update on an association list: insert or overwrite the binding of `k`. -/
def mapSet (m : List (String × String)) (k v : String) : List (String × String) :=
  (k, v) :: removeKey m k

/-- Modelled from the spec: library-go resourcemerge map merging, which is not
under src/. Merge policy: entries present on the existing object that the
required object does not set are carried over; entries set by the required
object win. -/
def mergeMap (existing required : List (String × String)) : List (String × String) :=
  required.foldl (fun acc p => mapSet acc p.1 p.2) existing

/-- reflect.DeepEqual on two Go string maps: the lookups agree on every key
of either map. -/
def mapsEqual (a b : List (String × String)) : Bool :=
  ((a.map Prod.fst).all (fun k => lookupKey k a == lookupKey k b)) &&
  ((b.map Prod.fst).all (fun k => lookupKey k a == lookupKey k b))

/-- The ObjectMeta fields the controller reads or writes: the resource name
and the label and annotation maps. -/
structure ObjectMeta where
  name : String
  labels : List (String × String)
  annots : List (String × String)
deriving DecidableEq, Repr

/-- Modelled from the spec: library-go resourcemerge string merging (not
under src/): a required value that is set (non-empty) wins, otherwise the
existing value is kept. -/
def setStringIfSet (existing required : String) : String :=
  if required ≠ "" then required else existing

/-- Modelled from the spec: library-go resourcemerge.EnsureObjectMeta (not
under src/). Fields present on the existing object that the required object
does not explicitly set are carried over; fields explicitly set by the
required object win. -/
def EnsureObjectMeta (existing required : ObjectMeta) : ObjectMeta :=
  { name := setStringIfSet existing.name required.name
    labels := mergeMap existing.labels required.labels
    annots := mergeMap existing.annots required.annots }

/-- storagev1.StorageClass, restricted to the fields the controller uses. -/
structure StorageClass where
  objectMeta : ObjectMeta
  provisioner : String
  parameters : List (String × String)
deriving DecidableEq, Repr

/-- The embedded Name of a storage class (Go promotes ObjectMeta.Name). -/
def StorageClass.name (sc : StorageClass) : String :=
  sc.objectMeta.name

/-- sharetypes.ShareType: the controller only reads its Name. -/
structure ShareType where
  name : String
deriving DecidableEq, Repr

/-- Modelled from the spec: the fixed configuration values of pkg/util (not
under src/): the storage-class name prefix and the secret name/namespace
coordinates used for credential injection. -/
structure UtilConfig where
  scNamePre : String
  manilaSecretName : String
  operatorNamespace : String
deriving DecidableEq, Repr

/-- generateStorageClass: the desired storage class derived from a share
type, a pure function. -/
def generateStorageClass (cfg : UtilConfig) (shareType : ShareType) : StorageClass :=
  { objectMeta := { name := cfg.scNamePre ++ shareType.name, labels := [], annots := [] }
    provisioner := "manila.csi.openstack.org"
    parameters := [
      ("type", shareType.name),
      ("csi.storage.k8s.io/provisioner-secret-name", cfg.manilaSecretName),
      ("csi.storage.k8s.io/provisioner-secret-namespace", cfg.operatorNamespace),
      ("csi.storage.k8s.io/node-stage-secret-name", cfg.manilaSecretName),
      ("csi.storage.k8s.io/node-stage-secret-namespace", cfg.operatorNamespace),
      ("csi.storage.k8s.io/node-publish-secret-name", cfg.manilaSecretName),
      ("csi.storage.k8s.io/node-publish-secret-namespace", cfg.operatorNamespace)] }

/-- operatorv1.OperatorCondition. -/
structure OperatorCondition where
  type : String
  status : String
  reason : String
  message : String
deriving DecidableEq, Repr

/-- operatorConditionPrefix constant of the controller. -/
def operatorConditionPre : String := "ManilaController"

/-- The condition type set by setEnabled. -/
def availableType : String := operatorConditionPre ++ "Available"

/-- The condition type set by setDisabled. -/
def disabledType : String := operatorConditionPre ++ "Disabled"

/-- Modelled from the spec: library-go v1helpers.SetOperatorCondition (not
under src/): insert-or-replace-by-key on the condition type. -/
def setOperatorCondition (conds : List OperatorCondition) (newCond : OperatorCondition) :
    List OperatorCondition :=
  match conds with
  | [] => [newCond]
  | c :: rest =>
    if c.type = newCond.type then newCond :: rest
    else c :: setOperatorCondition rest newCond

/-- Modelled from the spec: library-go v1helpers.RemoveOperatorCondition (not
under src/): delete-by-key on the condition type. -/
def removeOperatorCondition (conds : List OperatorCondition) (t : String) :
    List OperatorCondition :=
  conds.filter (fun c => c.type ≠ t)

/-- Find a condition by its type. -/
def findOperatorCondition : List OperatorCondition → String → Option OperatorCondition
  | [], _ => none
  | c :: rest, t => if c.type = t then some c else findOperatorCondition rest t

/-- The condition of type `t` is present with status True. -/
def condTrue (conds : List OperatorCondition) (t : String) : Bool :=
  match findOperatorCondition conds t with
  | some c => c.status = "True"
  | none => false

/-- The availableCnd literal of setEnabled. -/
def availableCnd : OperatorCondition :=
  { type := availableType, status := "True", reason := "", message := "" }

/-- The disabledCnd literal of setDisabled. -/
def disabledCnd (msg : String) : OperatorCondition :=
  { type := disabledType, status := "True", reason := "NoManila", message := msg }

/-- The condition-list transform committed by setEnabled: set Available=True
then remove the Disabled condition. -/
def setEnabledTransform (conds : List OperatorCondition) : List OperatorCondition :=
  removeOperatorCondition (setOperatorCondition conds availableCnd) disabledType

/-- The condition-list transform committed by setDisabled: set Disabled=True
with reason NoManila, then remove the Available condition. -/
def setDisabledTransform (msg : String) (conds : List OperatorCondition) :
    List OperatorCondition :=
  removeOperatorCondition (setOperatorCondition conds (disabledCnd msg)) availableType

/-- A Kubernetes API error, as distinguished by the controller:
apierrors.IsNotFound versus anything else. -/
inductive K8sErr
  | notFound
  | other (msg : String)
deriving DecidableEq, Repr

/-- The outcome of openStackClient.GetShareTypes: a share-type list, the
gophercloud ErrEndpointNotFound error, or any other error. -/
inductive ProbeResult
  | ok (shareTypes : List ShareType)
  | endpointNotFound
  | err (msg : String)
deriving DecidableEq, Repr

/-- An error returned by sync: a single error, or the aggregate built by
errors.NewAggregate from the per-item error messages. -/
inductive Err
  | basic (msg : String)
  | aggregate (msgs : List String)
deriving DecidableEq, Repr

/-- An externally visible call made by the controller, in order. -/
inductive Op
  | syncItem (name : String)
  | delete (name : String)
  | create (sc : StorageClass)
  | ensure (sc : StorageClass)
  | startController (idx : Nat) (workers : Nat)
deriving DecidableEq, Repr

/-- The mutable state the controller observes and mutates: the storage
classes held by the API server, the operator status conditions, and the
process-lifetime controllersRunning flag. -/
structure ClusterState where
  apiClasses : List StorageClass
  conditions : List OperatorCondition
  controllersRunning : Bool
deriving DecidableEq, Repr

/-- The external collaborators of one sync: the util configuration, the
operator state read, the OpenStack probe result, the storage-class lister
(read cache, possibly stale), injected failures of the delete / apply /
status-update calls, and the number of dependent CSI controllers. -/
structure Env where
  cfg : UtilConfig
  getState : Except String String
  probe : ProbeResult
  listerGet : String → Except K8sErr StorageClass
  deleteErr : String → Option String
  applyErr : String → Option String
  updateStatusErr : Option String
  csiControllers : Nat

/-- Find a storage class by name in a class list. -/
def findClass : List StorageClass → String → Option StorageClass
  | [], _ => none
  | sc :: rest, n => if sc.name = n then some sc else findClass rest n

/-- Remove every storage class of the given name from a class list. -/
def removeClass : List StorageClass → String → List StorageClass
  | [], _ => []
  | sc :: rest, n => if sc.name = n then removeClass rest n else sc :: removeClass rest n

/-- kubeClient.StorageV1().StorageClasses().Delete: fails with an injected
error when the environment says so, succeeds when the class is present on
the API server, and reports NotFound otherwise. -/
def deleteStorageClass (env : Env) (st : ClusterState) (name : String) :
    ClusterState × List Op × Option K8sErr :=
  match env.deleteErr name with
  | some msg => (st, [Op.delete name], some (K8sErr.other msg))
  | none =>
    match findClass st.apiClasses name with
    | some _ =>
      ({ st with apiClasses := removeClass st.apiClasses name }, [Op.delete name], none)
    | none => (st, [Op.delete name], some K8sErr.notFound)

/-- Modelled from the spec: library-go resourceapply.ApplyStorageClass (not
under src/): an idempotent apply against the API server that creates the
class when it is absent and otherwise performs a no-op-safe ensure update
(merging metadata), safe to call with an already-matching object. -/
def applySC (env : Env) (st : ClusterState) (expected : StorageClass) :
    ClusterState × List Op × Except String Unit :=
  match env.applyErr expected.name with
  | some msg => (st, [], Except.error msg)
  | none =>
    match findClass st.apiClasses expected.name with
    | none =>
      ({ st with apiClasses := st.apiClasses ++ [expected] },
       [Op.create expected], Except.ok ())
    | some existing =>
      let merged : StorageClass :=
        { expected with objectMeta := EnsureObjectMeta existing.objectMeta expected.objectMeta }
      ({ st with apiClasses :=
          st.apiClasses.map (fun sc => if sc.name = expected.name then merged else sc) },
       [Op.ensure merged], Except.ok ())

/-- applyStorageClass: look the class up in the lister's read cache; when it
is found with different parameters, delete it (NotFound on delete is reset
to a nil error and returned), merge the existing ObjectMeta into the
expected one and fall through to the apply; otherwise apply directly. -/
def applyStorageClass (env : Env) (st : ClusterState) (expected : StorageClass) :
    ClusterState × List Op × Except String Unit :=
  match env.listerGet expected.name with
  | Except.ok current =>
    if mapsEqual expected.parameters current.parameters then
      applySC env st expected
    else
      match deleteStorageClass env st expected.name with
      | (st1, tr1, some K8sErr.notFound) => (st1, tr1, Except.ok ())
      | (st1, tr1, some (K8sErr.other msg)) => (st1, tr1, Except.error msg)
      | (st1, tr1, none) =>
        let expected1 : StorageClass :=
          { expected with objectMeta := EnsureObjectMeta current.objectMeta expected.objectMeta }
        match applySC env st1 expected1 with
        | (st2, tr2, res) => (st2, tr1 ++ tr2, res)
  | Except.error _ => applySC env st expected

/-- The per-item loop body results of syncStorageClasses: the threaded
state, the concatenated trace (with one syncItem marker per element, from
the per-item log line), and the collected error messages. -/
def syncSCList (env : Env) (st : ClusterState) :
    List ShareType → ClusterState × List Op × List String
  | [] => (st, [], [])
  | shareType :: rest =>
    let sc := generateStorageClass env.cfg shareType
    match applyStorageClass env st sc with
    | (st1, tr1, res) =>
      match syncSCList env st1 rest with
      | (st2, tr2, errs2) =>
        (st2, (Op.syncItem shareType.name :: tr1) ++ tr2,
         (match res with | Except.ok _ => [] | Except.error e => [e]) ++ errs2)

/-- syncStorageClasses: reconcile every share type, collect all per-item
errors, and return them aggregated when any occurred. -/
def syncStorageClasses (env : Env) (st : ClusterState) (shareTypes : List ShareType) :
    ClusterState × List Op × Except Err Unit :=
  match syncSCList env st shareTypes with
  | (st1, tr1, errs) =>
    (st1, tr1, if errs = [] then Except.ok () else Except.error (Err.aggregate errs))

/-- v1helpers.UpdateStatus: commit a condition-list transform atomically, or
fail with the injected status-update error leaving the conditions unchanged. -/
def updateStatus (env : Env) (st : ClusterState)
    (f : List OperatorCondition → List OperatorCondition) :
    ClusterState × List Op × Except Err Unit :=
  match env.updateStatusErr with
  | some msg => (st, [], Except.error (Err.basic msg))
  | none => ({ st with conditions := f st.conditions }, [], Except.ok ())

/-- setEnabled: set Available=True and remove the Disabled condition in one
status update. -/
def setEnabled (env : Env) (st : ClusterState) : ClusterState × List Op × Except Err Unit :=
  updateStatus env st setEnabledTransform

/-- setDisabled: set Disabled=True with reason NoManila and the given
message, and remove the Available condition, in one status update. -/
def setDisabled (env : Env) (st : ClusterState) (msg : String) :
    ClusterState × List Op × Except Err Unit :=
  updateStatus env st (setDisabledTransform msg)

/-- The dependent-controller launch block of sync: when the running flag is
not set, start every CSI controller with one worker and set the flag. -/
def launchControllers (env : Env) (st : ClusterState) : ClusterState × List Op :=
  if st.controllersRunning then (st, [])
  else
    ({ st with controllersRunning := true },
     (List.range env.csiControllers).map (fun i => Op.startController i 1))

/-- sync: read the management state (quiescent unless Managed), probe
Manila, disable on a missing service or an empty share-type list, launch
the dependent controllers once, reconcile all storage classes, and enable
on full success. -/
def sync (env : Env) (st : ClusterState) : ClusterState × List Op × Except Err Unit :=
  match env.getState with
  | Except.error msg => (st, [], Except.error (Err.basic msg))
  | Except.ok mgmtState =>
    if mgmtState ≠ "Managed" then (st, [], Except.ok ())
    else
      match env.probe with
      | ProbeResult.err msg => (st, [], Except.error (Err.basic msg))
      | ProbeResult.endpointNotFound =>
        setDisabled env st ("This OpenStack does not provide Manila service")
      | ProbeResult.ok shareTypes =>
        if shareTypes.isEmpty then
          setDisabled env st ("Manila does not provide any share types")
        else
          match launchControllers env st with
          | (st1, tr1) =>
            match syncStorageClasses env st1 shareTypes with
            | (st2, tr2, Except.error e) => (st2, tr1 ++ tr2, Except.error e)
            | (st2, tr2, Except.ok _) =>
              match setEnabled env st2 with
              | (st3, tr3, res3) => (st3, tr1 ++ tr2 ++ tr3, res3)

/-- Iterate sync over a list of per-sync environments, threading the state
and concatenating the traces (the returned errors are dropped, as the
calling factory only logs them and resyncs). -/
def syncN (envs : List Env) (st : ClusterState) : ClusterState × List Op :=
  match envs with
  | [] => (st, [])
  | env :: rest =>
    match sync env st with
    | (st1, tr1, _) =>
      match syncN rest st1 with
      | (st2, tr2) => (st2, tr1 ++ tr2)

/-- The share-type names of the syncItem markers in a trace. -/
def itemNames (tr : List Op) : List String :=
  tr.filterMap (fun op => match op with | Op.syncItem n => some n | _ => none)

/-- The controller starts recorded in a trace, as (index, workers) pairs. -/
def starts (tr : List Op) : List (Nat × Nat) :=
  tr.filterMap (fun op => match op with | Op.startController i w => some (i, w) | _ => none)

/-- The create operations recorded in a trace. -/
def creates (tr : List Op) : List StorageClass :=
  tr.filterMap (fun op => match op with | Op.create sc => some sc | _ => none)

/-- The delete operations recorded in a trace. -/
def deletes (tr : List Op) : List String :=
  tr.filterMap (fun op => match op with | Op.delete n => some n | _ => none)

/-- At most one of Available=True and Disabled=True is present. -/
def mutualExclusion (conds : List OperatorCondition) : Prop :=
  ¬(condTrue conds availableType = true ∧ condTrue conds disabledType = true)

/-- The replacement object built in the parameters-changed branch: the
expected class carrying the merge of the observed ObjectMeta with the
expected ObjectMeta. -/
def replacementClass (current expected : StorageClass) : StorageClass :=
  { expected with objectMeta := EnsureObjectMeta current.objectMeta expected.objectMeta }

/-- The message used by sync when OpenStack has no Manila endpoint. -/
def noManilaMsg : String := "This OpenStack does not provide Manila service"

/-- The message used by sync when Manila reports no share types. -/
def noShareTypesMsg : String := "Manila does not provide any share types"

/-- Concrete util configuration used by the evaluation scenarios. -/
def cfgW : UtilConfig :=
  { scNamePre := "manila-"
    manilaSecretName := "csi-manila-secrets"
    operatorNamespace := "openshift-manila-csi-driver" }

/-- A concrete share type used by the evaluation scenarios. -/
def shareW : ShareType := { name := "default" }

/-- The desired storage class of `shareW` under `cfgW`. -/
def scW : StorageClass := generateStorageClass cfgW shareW

/-- An observed storage class of the same name with stale parameters (an
old secret namespace) and a pre-existing default-class annotation. -/
def obsW : StorageClass :=
  { objectMeta :=
      { name := "manila-default"
        labels := []
        annots := [("storageclass.kubernetes.io/is-default-class", "true")] }
    provisioner := "manila.csi.openstack.org"
    parameters := [("type", "default"),
      ("csi.storage.k8s.io/provisioner-secret-namespace", "oldns")] }

/-- A cluster with no storage classes, no conditions, and the controllers
not yet running. -/
def stEmptyW : ClusterState :=
  { apiClasses := [], conditions := [], controllersRunning := false }

/-- A cluster holding the stale observed class `obsW`. -/
def stObsW : ClusterState :=
  { apiClasses := [obsW], conditions := [], controllersRunning := false }

/-- A baseline healthy environment: managed, one share type, the stale
class visible in the lister, no injected failures, two CSI controllers. -/
def envW : Env :=
  { cfg := cfgW
    getState := Except.ok ("Managed")
    probe := ProbeResult.ok [shareW]
    listerGet := fun n =>
      if n = "manila-default" then Except.ok obsW else Except.error K8sErr.notFound
    deleteErr := fun _ => none
    applyErr := fun _ => none
    updateStatusErr := none
    csiControllers := 2 }

/-- Environment whose probe reports that the endpoint is missing. -/
def envNoServiceW : Env := { envW with probe := ProbeResult.endpointNotFound }

/-- Environment whose probe fails with an ordinary error. -/
def envProbeErrW : Env := { envW with probe := ProbeResult.err ("probe blew up") }

/-- Environment whose probe returns an empty share-type list. -/
def envEmptyW : Env := { envW with probe := ProbeResult.ok [] }

/-- Environment of an unmanaged operator. -/
def envUnmanagedW : Env := { envW with getState := Except.ok ("Unmanaged") }

/-- Environment with two share types where applying the second storage
class fails, and nothing observed in the lister. -/
def envPartialW : Env :=
  { envW with
    probe := ProbeResult.ok [shareW, { name := "fast" }]
    listerGet := fun _ => Except.error K8sErr.notFound
    applyErr := fun n => if n = "manila-fast" then some ("apply failed") else none }

/-- Environment whose lister lookup fails with an error that is not
NotFound. -/
def envListerErrW : Env :=
  { envW with listerGet := fun _ => Except.error (K8sErr.other ("cache broken")) }

end Manila

namespace Manila

theorem lookupKey_removeKey_self (m : List (String × String)) (k : String) :
    lookupKey k (removeKey m k) = none := by
  induction m with
  | nil => rfl
  | cons p rest ih =>
    by_cases hp : p.1 = k
    · simpa [removeKey, hp] using ih
    · simpa [removeKey, lookupKey, hp] using ih

theorem lookupKey_removeKey_ne (m : List (String × String)) (k k' : String)
    (h : k' ≠ k) : lookupKey k' (removeKey m k) = lookupKey k' m := by
  induction m with
  | nil => rfl
  | cons p rest ih =>
    by_cases hp : p.1 = k
    · have hp' : ¬(k = k') := fun hE => h hE.symm
      simp [removeKey, hp, lookupKey, hp', ih]
    · simp [removeKey, hp, lookupKey, ih]

theorem lookupKey_mapSet_self (m : List (String × String)) (k v : String) :
    lookupKey k (mapSet m k v) = some v := by
  simp [mapSet, lookupKey]

theorem lookupKey_mapSet_ne (m : List (String × String)) (k v k' : String)
    (h : k' ≠ k) : lookupKey k' (mapSet m k v) = lookupKey k' m := by
  have h' : ¬(k = k') := fun hE => h hE.symm
  simp [mapSet, lookupKey, h', lookupKey_removeKey_ne m k k' h]

theorem mergeMap_cons (ex : List (String × String)) (p : String × String)
    (rest : List (String × String)) :
    mergeMap ex (p :: rest) = mergeMap (mapSet ex p.1 p.2) rest := rfl

theorem lookupKey_mergeMap_of_none (req : List (String × String)) :
    ∀ ex k, lookupKey k req = none → lookupKey k (mergeMap ex req) = lookupKey k ex := by
  induction req with
  | nil => intro ex k _; rfl
  | cons p rest ih =>
    intro ex k h
    by_cases hp : p.1 = k
    · simp [lookupKey, hp] at h
    · simp only [lookupKey, hp, if_neg, ite_false] at h
      rw [mergeMap_cons, ih (mapSet ex p.1 p.2) k h,
        lookupKey_mapSet_ne ex p.1 p.2 k (fun hE => hp hE.symm)]

theorem lookupKey_eq_none_of_not_mem (req : List (String × String)) (k : String)
    (h : k ∉ req.map Prod.fst) : lookupKey k req = none := by
  induction req with
  | nil => rfl
  | cons p rest ih =>
    simp only [List.map_cons, List.mem_cons, not_or] at h
    have hp : ¬(p.1 = k) := fun hE => h.1 hE.symm
    simp [lookupKey, hp, ih h.2]

theorem lookupKey_mergeMap_of_some (req : List (String × String)) :
    ∀ ex k v, (req.map Prod.fst).Nodup → lookupKey k req = some v →
      lookupKey k (mergeMap ex req) = some v := by
  induction req with
  | nil => intro ex k v _ h; simp [lookupKey] at h
  | cons p rest ih =>
    intro ex k v hnodup h
    simp only [List.map_cons, List.nodup_cons] at hnodup
    by_cases hp : p.1 = k
    · subst hp
      simp [lookupKey] at h
      subst h
      have hrest : lookupKey p.1 rest = none :=
        lookupKey_eq_none_of_not_mem rest p.1 hnodup.1
      rw [mergeMap_cons, lookupKey_mergeMap_of_none rest (mapSet ex p.1 p.2) p.1 hrest,
        lookupKey_mapSet_self]
    · simp only [lookupKey, hp, ite_false] at h
      rw [mergeMap_cons]
      exact ih (mapSet ex p.1 p.2) k v hnodup.2 h

theorem findOperatorCondition_remove_self (conds : List OperatorCondition) (t : String) :
    findOperatorCondition (removeOperatorCondition conds t) t = none := by
  induction conds with
  | nil => rfl
  | cons c rest ih =>
    by_cases hc : c.type = t
    · simpa [removeOperatorCondition, List.filter_cons, hc] using ih
    · simpa [removeOperatorCondition, List.filter_cons, hc, findOperatorCondition] using ih

theorem findOperatorCondition_remove_ne (conds : List OperatorCondition) (t t' : String)
    (h : t' ≠ t) :
    findOperatorCondition (removeOperatorCondition conds t) t' =
      findOperatorCondition conds t' := by
  induction conds with
  | nil => rfl
  | cons c rest ih =>
    simp only [removeOperatorCondition, ne_eq, decide_not] at ih
    by_cases hc : c.type = t
    · have hc' : ¬(t = t') := fun hE => h hE.symm
      simp [removeOperatorCondition, List.filter_cons, hc, findOperatorCondition, hc', ih]
    · simp [removeOperatorCondition, List.filter_cons, hc, findOperatorCondition, ih]

theorem findOperatorCondition_set_self (conds : List OperatorCondition)
    (c : OperatorCondition) :
    findOperatorCondition (setOperatorCondition conds c) c.type = some c := by
  induction conds with
  | nil => simp [setOperatorCondition, findOperatorCondition]
  | cons d rest ih =>
    by_cases hd : d.type = c.type
    · simp [setOperatorCondition, hd, findOperatorCondition]
    · simpa [setOperatorCondition, hd, findOperatorCondition] using ih

theorem availableType_ne_disabledType : availableType ≠ disabledType := by
  decide

theorem setEnabledTransform_spec (conds : List OperatorCondition) :
    findOperatorCondition (setEnabledTransform conds) disabledType = none ∧
    findOperatorCondition (setEnabledTransform conds) availableType = some availableCnd := by
  constructor
  · exact findOperatorCondition_remove_self _ disabledType
  · rw [setEnabledTransform,
      findOperatorCondition_remove_ne _ disabledType availableType availableType_ne_disabledType]
    exact findOperatorCondition_set_self conds availableCnd

theorem updateStatus_spec (env : Env) (st : ClusterState)
    (f : List OperatorCondition → List OperatorCondition) :
    (updateStatus env st f).2.1 = [] ∧
    (updateStatus env st f).1.apiClasses = st.apiClasses ∧
    (updateStatus env st f).1.controllersRunning = st.controllersRunning := by
  unfold updateStatus
  cases env.updateStatusErr <;> simp

theorem deleteStorageClass_spec (env : Env) (st : ClusterState) (n : String) :
    (deleteStorageClass env st n).2.1 = [Op.delete n] ∧
    (deleteStorageClass env st n).1.conditions = st.conditions ∧
    (deleteStorageClass env st n).1.controllersRunning = st.controllersRunning := by
  unfold deleteStorageClass
  cases env.deleteErr n with
  | some msg => simp
  | none => cases findClass st.apiClasses n <;> simp

theorem applySC_spec (env : Env) (st : ClusterState) (e : StorageClass) :
    itemNames (applySC env st e).2.1 = [] ∧
    starts (applySC env st e).2.1 = [] ∧
    deletes (applySC env st e).2.1 = [] ∧
    (applySC env st e).1.conditions = st.conditions ∧
    (applySC env st e).1.controllersRunning = st.controllersRunning := by
  unfold applySC
  cases env.applyErr e.name with
  | some msg => simp [itemNames, starts, deletes]
  | none => cases findClass st.apiClasses e.name <;> simp [itemNames, starts, deletes]

theorem itemNames_append (a b : List Op) : itemNames (a ++ b) = itemNames a ++ itemNames b := by
  simp [itemNames]

theorem starts_append (a b : List Op) : starts (a ++ b) = starts a ++ starts b := by
  simp [starts]

theorem deletes_append (a b : List Op) : deletes (a ++ b) = deletes a ++ deletes b := by
  simp [deletes]

theorem itemNames_delete (n : String) (tr : List Op) :
    itemNames (Op.delete n :: tr) = itemNames tr := rfl

theorem starts_delete (n : String) (tr : List Op) :
    starts (Op.delete n :: tr) = starts tr := rfl

theorem itemNames_syncItem (n : String) (tr : List Op) :
    itemNames (Op.syncItem n :: tr) = n :: itemNames tr := rfl

theorem starts_syncItem (n : String) (tr : List Op) :
    starts (Op.syncItem n :: tr) = starts tr := rfl

theorem applyStorageClass_spec (env : Env) (st : ClusterState) (e : StorageClass) :
    itemNames (applyStorageClass env st e).2.1 = [] ∧
    starts (applyStorageClass env st e).2.1 = [] ∧
    (applyStorageClass env st e).1.conditions = st.conditions ∧
    (applyStorageClass env st e).1.controllersRunning = st.controllersRunning := by
  unfold applyStorageClass
  cases hl : env.listerGet e.name with
  | error err =>
    exact ⟨(applySC_spec env st e).1, (applySC_spec env st e).2.1,
      (applySC_spec env st e).2.2.2.1, (applySC_spec env st e).2.2.2.2⟩
  | ok current =>
    by_cases hm : mapsEqual e.parameters current.parameters = true
    · simp only [hm, if_true]
      exact ⟨(applySC_spec env st e).1, (applySC_spec env st e).2.1,
        (applySC_spec env st e).2.2.2.1, (applySC_spec env st e).2.2.2.2⟩
    · simp only [hm, if_false]
      rcases hdel : deleteStorageClass env st e.name with ⟨st1, tr1, dres⟩
      have hD := deleteStorageClass_spec env st e.name
      rw [hdel] at hD
      obtain ⟨hDtr, hDcond, hDrun⟩ := hD
      simp only at hDtr hDcond hDrun
      subst hDtr
      cases dres with
      | none =>
        rcases ha : applySC env st1
            { e with objectMeta := EnsureObjectMeta current.objectMeta e.objectMeta } with
          ⟨st2, tr2, res⟩
        have hA := applySC_spec env st1
          { e with objectMeta := EnsureObjectMeta current.objectMeta e.objectMeta }
        rw [ha] at hA
        simp only at hA
        obtain ⟨hA1, hA2, _, hA4, hA5⟩ := hA
        simp [itemNames, starts] at hA1 hA2
        simp [ha, itemNames, starts, hA4, hA5, hDcond, hDrun]
        exact ⟨hA1, hA2⟩
      | some k8e =>
        cases k8e <;> simp [itemNames, starts, hDcond, hDrun]

theorem setDisabledTransform_spec (msg : String) (conds : List OperatorCondition) :
    findOperatorCondition (setDisabledTransform msg conds) availableType = none ∧
    findOperatorCondition (setDisabledTransform msg conds) disabledType =
      some (disabledCnd msg) := by
  constructor
  · exact findOperatorCondition_remove_self _ availableType
  · rw [setDisabledTransform,
      findOperatorCondition_remove_ne _ availableType disabledType
        (fun hE => availableType_ne_disabledType hE.symm)]
    exact findOperatorCondition_set_self conds (disabledCnd msg)

theorem syncSCList_spec (env : Env) :
    ∀ (l : List ShareType) (st : ClusterState),
      itemNames (syncSCList env st l).2.1 = l.map ShareType.name ∧
      starts (syncSCList env st l).2.1 = [] ∧
      (syncSCList env st l).1.conditions = st.conditions ∧
      (syncSCList env st l).1.controllersRunning = st.controllersRunning := by
  intro l
  induction l with
  | nil => intro st; simp [syncSCList, itemNames, starts]
  | cons shareType rest ih =>
    intro st
    rcases ha : applyStorageClass env st (generateStorageClass env.cfg shareType) with
      ⟨st1, tr1, res⟩
    rcases hr : syncSCList env st1 rest with ⟨st2, tr2, errs2⟩
    have hA := applyStorageClass_spec env st (generateStorageClass env.cfg shareType)
    rw [ha] at hA
    simp only at hA
    have hR := ih st1
    rw [hr] at hR
    simp only at hR
    simp only [syncSCList, ha, hr]
    refine ⟨?_, ?_, ?_, ?_⟩
    · rw [show (Op.syncItem shareType.name :: tr1) ++ tr2 =
        Op.syncItem shareType.name :: (tr1 ++ tr2) from rfl,
        itemNames_syncItem, itemNames_append, hA.1, hR.1]
      simp
    · rw [show (Op.syncItem shareType.name :: tr1) ++ tr2 =
        Op.syncItem shareType.name :: (tr1 ++ tr2) from rfl,
        starts_syncItem, starts_append, hA.2.1, hR.2.1]
      simp
    · rw [hR.2.2.1, hA.2.2.1]
    · rw [hR.2.2.2, hA.2.2.2]

theorem syncStorageClasses_spec (env : Env) (st : ClusterState) (l : List ShareType) :
    itemNames (syncStorageClasses env st l).2.1 = l.map ShareType.name ∧
    starts (syncStorageClasses env st l).2.1 = [] ∧
    (syncStorageClasses env st l).1.conditions = st.conditions ∧
    (syncStorageClasses env st l).1.controllersRunning = st.controllersRunning := by
  rcases h : syncSCList env st l with ⟨st1, tr1, errs⟩
  have hS := syncSCList_spec env l st
  rw [h] at hS
  simp only at hS
  simpa [syncStorageClasses, h] using hS

theorem starts_nil : starts [] = [] := rfl

theorem itemNames_nil : itemNames [] = [] := rfl

theorem starts_start (i w : Nat) (tr : List Op) :
    starts (Op.startController i w :: tr) = (i, w) :: starts tr := rfl

theorem itemNames_start (i w : Nat) (tr : List Op) :
    itemNames (Op.startController i w :: tr) = itemNames tr := rfl

theorem startOps_starts (l : List Nat) :
    starts (l.map (fun i => Op.startController i 1)) = l.map (fun i => (i, 1)) := by
  induction l with
  | nil => rfl
  | cons i rest ih => rw [List.map_cons, starts_start, ih, List.map_cons]

theorem startOps_itemNames (l : List Nat) :
    itemNames (l.map (fun i => Op.startController i 1)) = [] := by
  induction l with
  | nil => rfl
  | cons i rest ih => rw [List.map_cons, itemNames_start, ih]

theorem launchControllers_spec (env : Env) (st : ClusterState) :
    (launchControllers env st).1.conditions = st.conditions ∧
    (launchControllers env st).1.apiClasses = st.apiClasses ∧
    (st.controllersRunning = true → launchControllers env st = (st, [])) ∧
    (st.controllersRunning = false →
      (launchControllers env st).1.controllersRunning = true ∧
      starts (launchControllers env st).2 =
        (List.range env.csiControllers).map (fun i => (i, 1))) := by
  unfold launchControllers
  by_cases h : st.controllersRunning = true
  · simp [h]
  · simp [h, startOps_starts]

theorem setDisabled_ok (env : Env) (st : ClusterState) (msg : String)
    (h : env.updateStatusErr = none) :
    setDisabled env st msg =
      ({ st with conditions := setDisabledTransform msg st.conditions }, [], Except.ok ()) := by
  simp [setDisabled, updateStatus, h]

theorem setEnabled_ok (env : Env) (st : ClusterState)
    (h : env.updateStatusErr = none) :
    setEnabled env st =
      ({ st with conditions := setEnabledTransform st.conditions }, [], Except.ok ()) := by
  simp [setEnabled, updateStatus, h]

theorem sync_running (env : Env) (st : ClusterState)
    (h : st.controllersRunning = true) :
    (sync env st).1.controllersRunning = true ∧ starts (sync env st).2.1 = [] := by
  unfold sync
  cases env.getState with
  | error msg => exact ⟨h, rfl⟩
  | ok m =>
    by_cases hm : m = "Managed"
    · simp only [hm, ne_eq, not_true_eq_false, if_false, ite_false]
      cases env.probe with
      | err msg => exact ⟨h, rfl⟩
      | endpointNotFound =>
        rcases hu : updateStatus env st
            (setDisabledTransform ("This OpenStack does not provide Manila service")) with
          ⟨st1, tr1, res⟩
        have hU := updateStatus_spec env st
          (setDisabledTransform ("This OpenStack does not provide Manila service"))
        rw [hu] at hU
        simp only at hU
        refine ⟨?_, ?_⟩
        · simp [setDisabled, hu, hU.2.2, h]
        · simp [setDisabled, hu, hU.1, starts_nil]
      | ok shareTypes =>
        by_cases he : shareTypes.isEmpty
        · simp only [he, if_true, ite_true]
          rcases hu : updateStatus env st
              (setDisabledTransform ("Manila does not provide any share types")) with
            ⟨st1, tr1, res⟩
          have hU := updateStatus_spec env st
            (setDisabledTransform ("Manila does not provide any share types"))
          rw [hu] at hU
          simp only at hU
          refine ⟨?_, ?_⟩
          · simp [setDisabled, hu, hU.2.2, h]
          · simp [setDisabled, hu, hU.1, starts_nil]
        · simp only [he, if_false, ite_false]
          have hL : launchControllers env st = (st, []) :=
            (launchControllers_spec env st).2.2.1 h
          rw [hL]
          rcases hsc : syncStorageClasses env st shareTypes with ⟨st2, tr2, res⟩
          have hS := syncStorageClasses_spec env st shareTypes
          rw [hsc] at hS
          simp only at hS
          cases res with
          | error e =>
            refine ⟨?_, ?_⟩
            · simp [hS.2.2.2, h]
            · simp [hS.2.1]
          | ok _ =>
            rcases hup : updateStatus env st2 setEnabledTransform with ⟨st3, tr3, res3⟩
            have hU := updateStatus_spec env st2 setEnabledTransform
            rw [hup] at hU
            simp only at hU
            refine ⟨?_, ?_⟩
            · simp [setEnabled, hup, hU.2.2, hS.2.2.2, h]
            · simp [setEnabled, hup, starts_append, hS.2.1, hU.1, starts_nil]
    · simp [hm, h, starts_nil]

theorem sync_launch (env : Env) (st : ClusterState) (l : List ShareType)
    (h1 : env.getState = Except.ok ("Managed"))
    (h2 : env.probe = ProbeResult.ok l) (h3 : l ≠ [])
    (h0 : st.controllersRunning = false) :
    (sync env st).1.controllersRunning = true ∧
    starts (sync env st).2.1 = (List.range env.csiControllers).map (fun i => (i, 1)) := by
  unfold sync
  rw [h1, h2]
  have hempty : l.isEmpty = false := by
    cases l with
    | nil => exact absurd rfl h3
    | cons a as => rfl
  simp only [ne_eq, not_true_eq_false, if_false, ite_false, hempty]
  have hL : launchControllers env st =
      ({ st with controllersRunning := true },
       (List.range env.csiControllers).map (fun i => Op.startController i 1)) := by
    simp [launchControllers, h0]
  rw [hL]
  rcases hsc : syncStorageClasses env { st with controllersRunning := true } l with
    ⟨st2, tr2, res⟩
  have hS := syncStorageClasses_spec env { st with controllersRunning := true } l
  rw [hsc] at hS
  simp only at hS
  cases res with
  | error e =>
    refine ⟨hS.2.2.2, ?_⟩
    simp [starts_append, hS.2.1, startOps_starts]
  | ok _ =>
    rcases hup : updateStatus env st2 setEnabledTransform with ⟨st3, tr3, res3⟩
    have hU := updateStatus_spec env st2 setEnabledTransform
    rw [hup] at hU
    simp only at hU
    refine ⟨?_, ?_⟩
    · simp [setEnabled, hup, hU.2.2, hS.2.2.2]
    · simp [setEnabled, hup, starts_append, hS.2.1, hU.1, starts_nil, startOps_starts]

theorem syncN_running (envs : List Env) :
    ∀ st : ClusterState, st.controllersRunning = true →
      (syncN envs st).1.controllersRunning = true ∧ starts (syncN envs st).2 = [] := by
  induction envs with
  | nil => intro st h; exact ⟨h, rfl⟩
  | cons env rest ih =>
    intro st h
    rcases hs : sync env st with ⟨st1, tr1, res⟩
    have hS := sync_running env st h
    rw [hs] at hS
    simp only at hS
    rcases hr : syncN rest st1 with ⟨st2, tr2⟩
    have hR := ih st1 hS.1
    rw [hr] at hR
    simp only at hR
    simp [syncN, hs, hr, starts_append, hS.2, hR.2, hR.1]

theorem findClass_removeClass_self (l : List StorageClass) (n : String) :
    findClass (removeClass l n) n = none := by
  induction l with
  | nil => rfl
  | cons sc rest ih =>
    by_cases hs : sc.name = n
    · simpa [removeClass, hs] using ih
    · simpa [removeClass, findClass, hs] using ih

/-- C9: generateStorageClass is a pure, deterministic function of the share
type: the resulting resource is named prefix + share-type name, its
provisioner is the Manila CSI provisioner, and its parameters bind type to
the share-type name plus exactly the six fixed secret-reference keys;
computing it twice on the same input yields identical results. -/
theorem c9_generateStorageClass_pure (cfg : UtilConfig) (shareType : ShareType) :
    (generateStorageClass cfg shareType).name = cfg.scNamePre ++ shareType.name ∧
    (generateStorageClass cfg shareType).provisioner = "manila.csi.openstack.org" ∧
    lookupKey ("type") (generateStorageClass cfg shareType).parameters =
      some shareType.name ∧
    lookupKey ("csi.storage.k8s.io/provisioner-secret-name")
      (generateStorageClass cfg shareType).parameters = some cfg.manilaSecretName ∧
    lookupKey ("csi.storage.k8s.io/provisioner-secret-namespace")
      (generateStorageClass cfg shareType).parameters = some cfg.operatorNamespace ∧
    lookupKey ("csi.storage.k8s.io/node-stage-secret-name")
      (generateStorageClass cfg shareType).parameters = some cfg.manilaSecretName ∧
    lookupKey ("csi.storage.k8s.io/node-stage-secret-namespace")
      (generateStorageClass cfg shareType).parameters = some cfg.operatorNamespace ∧
    lookupKey ("csi.storage.k8s.io/node-publish-secret-name")
      (generateStorageClass cfg shareType).parameters = some cfg.manilaSecretName ∧
    lookupKey ("csi.storage.k8s.io/node-publish-secret-namespace")
      (generateStorageClass cfg shareType).parameters = some cfg.operatorNamespace ∧
    (generateStorageClass cfg shareType).parameters.map Prod.fst =
      ["type",
       "csi.storage.k8s.io/provisioner-secret-name",
       "csi.storage.k8s.io/provisioner-secret-namespace",
       "csi.storage.k8s.io/node-stage-secret-name",
       "csi.storage.k8s.io/node-stage-secret-namespace",
       "csi.storage.k8s.io/node-publish-secret-name",
       "csi.storage.k8s.io/node-publish-secret-namespace"] ∧
    generateStorageClass cfg shareType = generateStorageClass cfg shareType := by
  refine ⟨rfl, rfl, ?_, ?_, ?_, ?_, ?_, ?_, ?_, rfl, rfl⟩ <;>
    simp [generateStorageClass, lookupKey]

/-- C8: when the management state reads successfully as anything other than
Managed, sync returns success immediately with no side effects: the state
is unchanged and no external call is made. -/
theorem c8_sync_unmanaged_noop (env : Env) (st : ClusterState) (m : String)
    (h1 : env.getState = Except.ok m) (h2 : m ≠ "Managed") :
    sync env st = (st, [], Except.ok ()) := by
  unfold sync
  rw [h1]
  simp [h2]

/-- Witness for C8: a concrete unmanaged environment leaves a concrete
cluster untouched. -/
theorem c8_sync_unmanaged_noop_witness :
    sync envUnmanagedW stObsW = (stObsW, [], Except.ok ()) :=
  c8_sync_unmanaged_noop envUnmanagedW stObsW ("Unmanaged") rfl (by decide)

/-- C4: both condition transitions preserve the mutual-exclusion invariant
from any prior condition state: setEnabled sets Available=True and removes
the Disabled condition, setDisabled sets Disabled=True and removes the
Available condition, so at most one of the two holds afterwards. -/
theorem c4_conditions_mutually_exclusive (conds : List OperatorCondition) (msg : String) :
    mutualExclusion (setEnabledTransform conds) ∧
    mutualExclusion (setDisabledTransform msg conds) ∧
    findOperatorCondition (setEnabledTransform conds) disabledType = none ∧
    condTrue (setEnabledTransform conds) availableType = true ∧
    findOperatorCondition (setDisabledTransform msg conds) availableType = none ∧
    condTrue (setDisabledTransform msg conds) disabledType = true := by
  have hE := setEnabledTransform_spec conds
  have hD := setDisabledTransform_spec msg conds
  refine ⟨?_, ?_, hE.1, ?_, hD.1, ?_⟩
  · intro hc
    have h2 := hc.2
    simp [condTrue, hE.1] at h2
  · intro hc
    have h2 := hc.1
    simp [condTrue, hD.1] at h2
  · simp [condTrue, hE.2, availableCnd]
  · simp [condTrue, hD.2, disabledCnd]

/-- C10: when the lister lookup fails with any error (not only NotFound),
the replacement branch is skipped, the lookup error is not surfaced, and
the item reduces to the idempotent apply call alone, with no delete. -/
theorem c10_lister_error_treated_absent (env : Env) (st : ClusterState)
    (expected : StorageClass) (e : K8sErr)
    (h : env.listerGet expected.name = Except.error e) :
    applyStorageClass env st expected = applySC env st expected ∧
    deletes (applyStorageClass env st expected).2.1 = [] := by
  have heq : applyStorageClass env st expected = applySC env st expected := by
    unfold applyStorageClass
    rw [h]
  refine ⟨heq, ?_⟩
  rw [heq]
  exact (applySC_spec env st expected).2.2.1

/-- Witness for C10: a concrete broken lister cache reduces the item to
the plain apply call. -/
theorem c10_lister_error_treated_absent_witness :
    applyStorageClass envListerErrW stObsW scW = applySC envListerErrW stObsW scW ∧
    deletes (applyStorageClass envListerErrW stObsW scW).2.1 = [] :=
  c10_lister_error_treated_absent envListerErrW stObsW scW
    (K8sErr.other ("cache broken")) rfl

/-- C1 counterexample: a concrete item where the observed class is in the
lister with different parameters and the delete reports NotFound; the item
returns success, but no create is issued in this invocation, contrary to
the claim that it still proceeds to create the resource. -/
theorem c1_counterexample_no_create :
    envW.listerGet scW.name = Except.ok obsW ∧
    mapsEqual scW.parameters obsW.parameters = false ∧
    (deleteStorageClass envW stEmptyW scW.name).2.2 = some K8sErr.notFound ∧
    applyStorageClass envW stEmptyW scW =
      (stEmptyW, [Op.delete ("manila-default")], Except.ok ()) ∧
    creates (applyStorageClass envW stEmptyW scW).2.1 = [] :=
  ⟨rfl, rfl, rfl, rfl, rfl⟩

/-- C1 (amended): when the observed class has different parameters and the
delete reports NotFound, the item treats the deletion as success and
returns success, but issues no create in this invocation: the trace is the
single delete call and the state is unchanged. -/
theorem c1_delete_notfound_returns_success (env : Env) (st : ClusterState)
    (expected current : StorageClass)
    (hfound : env.listerGet expected.name = Except.ok current)
    (hdiff : mapsEqual expected.parameters current.parameters = false)
    (hdelErr : env.deleteErr expected.name = none)
    (habsent : findClass st.apiClasses expected.name = none) :
    applyStorageClass env st expected = (st, [Op.delete expected.name], Except.ok ()) := by
  unfold applyStorageClass
  rw [hfound]
  simp only [hdiff, Bool.false_eq_true, if_false, ite_false]
  have hdel : deleteStorageClass env st expected.name =
      (st, [Op.delete expected.name], some K8sErr.notFound) := by
    simp [deleteStorageClass, hdelErr, habsent]
  rw [hdel]

/-- Witness for C1 (amended) at a concrete stale class whose delete races
a concurrent deletion. -/
theorem c1_delete_notfound_returns_success_witness :
    applyStorageClass envW stEmptyW scW =
      (stEmptyW, [Op.delete scW.name], Except.ok ()) :=
  c1_delete_notfound_returns_success envW stEmptyW scW obsW rfl rfl rfl rfl

/-- C2: when the observed class exists on the API server with parameters
different from the desired class of the same name and the delete succeeds,
the item issues exactly one delete followed by exactly one create, and the
created object's metadata merges the observed metadata into the desired
one: desired-set fields win, and observed fields the desired object does
not set are carried over. -/
theorem c2_replacement_delete_then_create (env : Env) (st : ClusterState)
    (expected current : StorageClass)
    (hfound : env.listerGet expected.name = Except.ok current)
    (hdiff : mapsEqual expected.parameters current.parameters = false)
    (hdelErr : env.deleteErr expected.name = none)
    (hpresent : ∃ c, findClass st.apiClasses expected.name = some c)
    (hname : expected.objectMeta.name ≠ "")
    (happly : env.applyErr expected.name = none) :
    applyStorageClass env st expected =
      ({ st with apiClasses :=
          removeClass st.apiClasses expected.name ++ [replacementClass current expected] },
       [Op.delete expected.name, Op.create (replacementClass current expected)],
       Except.ok ()) ∧
    deletes (applyStorageClass env st expected).2.1 = [expected.name] ∧
    creates (applyStorageClass env st expected).2.1 = [replacementClass current expected] ∧
    (∀ k v, (expected.objectMeta.annots.map Prod.fst).Nodup →
      lookupKey k expected.objectMeta.annots = some v →
      lookupKey k (replacementClass current expected).objectMeta.annots = some v) ∧
    (∀ k v, lookupKey k expected.objectMeta.annots = none →
      lookupKey k current.objectMeta.annots = some v →
      lookupKey k (replacementClass current expected).objectMeta.annots = some v) := by
  obtain ⟨c0, hc0⟩ := hpresent
  have hrn : (replacementClass current expected).name = expected.name := by
    simp [replacementClass, StorageClass.name, EnsureObjectMeta, setStringIfSet, hname]
  have hdel : deleteStorageClass env st expected.name =
      ({ st with apiClasses := removeClass st.apiClasses expected.name },
       [Op.delete expected.name], none) := by
    simp [deleteStorageClass, hdelErr, hc0]
  have happ : applySC env { st with apiClasses := removeClass st.apiClasses expected.name }
      (replacementClass current expected) =
      ({ st with apiClasses :=
          removeClass st.apiClasses expected.name ++ [replacementClass current expected] },
       [Op.create (replacementClass current expected)], Except.ok ()) := by
    unfold applySC
    rw [hrn, happly]
    have hfind : findClass
        ({ st with apiClasses := removeClass st.apiClasses expected.name }).apiClasses
          expected.name = none := findClass_removeClass_self st.apiClasses expected.name
    rw [hfind]
  have hmain : applyStorageClass env st expected =
      ({ st with apiClasses :=
          removeClass st.apiClasses expected.name ++ [replacementClass current expected] },
       [Op.delete expected.name, Op.create (replacementClass current expected)],
       Except.ok ()) := by
    unfold applyStorageClass
    rw [hfound]
    simp only [hdiff, Bool.false_eq_true, if_false, ite_false]
    have happ' : applySC env { st with apiClasses := removeClass st.apiClasses expected.name }
        { expected with objectMeta := EnsureObjectMeta current.objectMeta expected.objectMeta } =
        ({ st with apiClasses :=
            removeClass st.apiClasses expected.name ++ [replacementClass current expected] },
         [Op.create (replacementClass current expected)], Except.ok ()) := happ
    simp only [hdel, happ']
    rfl
  refine ⟨hmain, ?_, ?_, ?_, ?_⟩
  · rw [hmain]
    rfl
  · rw [hmain]
    rfl
  · intro k v hnd hv
    have : (replacementClass current expected).objectMeta.annots =
        mergeMap current.objectMeta.annots expected.objectMeta.annots := rfl
    rw [this]
    exact lookupKey_mergeMap_of_some expected.objectMeta.annots
      current.objectMeta.annots k v hnd hv
  · intro k v hnone hv
    have hrw : (replacementClass current expected).objectMeta.annots =
        mergeMap current.objectMeta.annots expected.objectMeta.annots := rfl
    rw [hrw, lookupKey_mergeMap_of_none expected.objectMeta.annots
      current.objectMeta.annots k hnone]
    exact hv

/-- Witness for C2: replacing a concrete stale class carries over its
pre-existing default-class annotation. -/
theorem c2_replacement_delete_then_create_witness :
    applyStorageClass envW stObsW scW =
      ({ stObsW with apiClasses :=
          removeClass stObsW.apiClasses scW.name ++ [replacementClass obsW scW] },
       [Op.delete scW.name, Op.create (replacementClass obsW scW)], Except.ok ()) ∧
    lookupKey ("storageclass.kubernetes.io/is-default-class")
      (replacementClass obsW scW).objectMeta.annots = some ("true") := by
  have h := c2_replacement_delete_then_create envW stObsW scW obsW rfl rfl rfl
    ⟨obsW, rfl⟩ (by decide) rfl
  exact ⟨h.1, h.2.2.2.2 ("storageclass.kubernetes.io/is-default-class") ("true") rfl rfl⟩

/-- C5: a probe failing with the endpoint-not-found error makes sync set
the Disabled condition with reason NoManila and the fixed message, remove
Available, and return success, while any other probe error is returned
unchanged with no state change at all. -/
theorem c5_probe_failures (envN envO : Env) (st : ClusterState) (msg : String)
    (h1 : envN.getState = Except.ok ("Managed"))
    (h2 : envN.probe = ProbeResult.endpointNotFound)
    (h3 : envN.updateStatusErr = none)
    (h4 : envO.getState = Except.ok ("Managed"))
    (h5 : envO.probe = ProbeResult.err msg) :
    sync envN st =
      ({ st with conditions := setDisabledTransform noManilaMsg st.conditions },
       [], Except.ok ()) ∧
    findOperatorCondition (sync envN st).1.conditions disabledType =
      some (disabledCnd noManilaMsg) ∧
    findOperatorCondition (sync envN st).1.conditions availableType = none ∧
    sync envO st = (st, [], Except.error (Err.basic msg)) := by
  have hN : sync envN st =
      ({ st with conditions := setDisabledTransform noManilaMsg st.conditions },
       [], Except.ok ()) := by
    unfold sync
    rw [h1, h2]
    simp [setDisabled_ok envN st _ h3, noManilaMsg]
  have hO : sync envO st = (st, [], Except.error (Err.basic msg)) := by
    unfold sync
    rw [h4, h5]
    simp
  refine ⟨hN, ?_, ?_, hO⟩
  · rw [hN]
    exact (setDisabledTransform_spec _ st.conditions).2
  · rw [hN]
    exact (setDisabledTransform_spec _ st.conditions).1

/-- Witness for C5: concrete endpoint-not-found and ordinary probe
failures. -/
theorem c5_probe_failures_witness :
    sync envNoServiceW stEmptyW =
      ({ stEmptyW with conditions := setDisabledTransform noManilaMsg stEmptyW.conditions },
       [], Except.ok ()) ∧
    sync envProbeErrW stEmptyW = (stEmptyW, [], Except.error (Err.basic ("probe blew up"))) := by
  have h := c5_probe_failures envNoServiceW envProbeErrW stEmptyW ("probe blew up")
    rfl rfl rfl rfl rfl
  exact ⟨h.1, h.2.2.2⟩

/-- C6: a successful probe returning an empty share-type list disables the
operator exactly like the not-supported case except for the message: the
Disabled condition carries the empty-list message, Available is removed,
sync returns success, and no controller start or storage-class call is
made. -/
theorem c6_empty_share_types_disable (envE envN : Env) (st : ClusterState)
    (h1 : envE.getState = Except.ok ("Managed"))
    (h2 : envE.probe = ProbeResult.ok [])
    (h3 : envE.updateStatusErr = none)
    (h4 : envN.getState = Except.ok ("Managed"))
    (h5 : envN.probe = ProbeResult.endpointNotFound)
    (h6 : envN.updateStatusErr = none) :
    sync envE st =
      ({ st with conditions := setDisabledTransform noShareTypesMsg st.conditions },
       [], Except.ok ()) ∧
    (sync envE st).1.controllersRunning = st.controllersRunning ∧
    (sync envE st).1.apiClasses = st.apiClasses ∧
    (sync envE st).2.1 = [] ∧
    findOperatorCondition (sync envE st).1.conditions disabledType =
      some (disabledCnd noShareTypesMsg) ∧
    findOperatorCondition (sync envE st).1.conditions availableType = none ∧
    sync envN st =
      ({ st with conditions := setDisabledTransform noManilaMsg st.conditions },
       [], Except.ok ()) := by
  have hE : sync envE st =
      ({ st with conditions := setDisabledTransform noShareTypesMsg st.conditions },
       [], Except.ok ()) := by
    unfold sync
    rw [h1, h2]
    simp [setDisabled_ok envE st _ h3, noShareTypesMsg]
  have hN : sync envN st =
      ({ st with conditions := setDisabledTransform noManilaMsg st.conditions },
       [], Except.ok ()) := by
    unfold sync
    rw [h4, h5]
    simp [setDisabled_ok envN st _ h6, noManilaMsg]
  refine ⟨hE, ?_, ?_, ?_, ?_, ?_, hN⟩
  · rw [hE]
  · rw [hE]
  · rw [hE]
  · rw [hE]
    exact (setDisabledTransform_spec _ st.conditions).2
  · rw [hE]
    exact (setDisabledTransform_spec _ st.conditions).1

/-- Witness for C6: a concrete empty probe result disables the operator
with an empty trace. -/
theorem c6_empty_share_types_disable_witness :
    sync envEmptyW stEmptyW =
      ({ stEmptyW with conditions := setDisabledTransform noShareTypesMsg stEmptyW.conditions },
       [], Except.ok ()) ∧
    (sync envEmptyW stEmptyW).2.1 = [] := by
  have h := c6_empty_share_types_disable envEmptyW envNoServiceW stEmptyW
    rfl rfl rfl rfl rfl rfl
  exact ⟨h.1, h.2.2.2.1⟩

/-- C3: reconciliation attempts every share type even when some fail, all
per-item errors are returned together as one aggregate error, and sync
returns that error before the Enabled transition, leaving the conditions
unchanged. -/
theorem c3_partial_failure_aggregates (env : Env) (st : ClusterState)
    (l : List ShareType) (e : Err)
    (h1 : env.getState = Except.ok ("Managed"))
    (h2 : env.probe = ProbeResult.ok l)
    (h3 : l ≠ [])
    (h4 : (syncStorageClasses env (launchControllers env st).1 l).2.2 = Except.error e) :
    itemNames (syncStorageClasses env (launchControllers env st).1 l).2.1 =
      l.map ShareType.name ∧
    e = Err.aggregate (syncSCList env (launchControllers env st).1 l).2.2 ∧
    (syncSCList env (launchControllers env st).1 l).2.2 ≠ [] ∧
    (sync env st).2.2 = Except.error e ∧
    (sync env st).1.conditions = st.conditions := by
  have hempty : l.isEmpty = false := by
    cases l with
    | nil => exact absurd rfl h3
    | cons a as => rfl
  rcases hL : launchControllers env st with ⟨st1, tr1⟩
  have hLs := launchControllers_spec env st
  rw [hL] at hLs
  simp only at hLs
  simp only [hL] at h4 ⊢
  rcases hlist : syncSCList env st1 l with ⟨st2, tr2, errs⟩
  have hsc : syncStorageClasses env st1 l =
      (st2, tr2, if errs = [] then Except.ok () else Except.error (Err.aggregate errs)) := by
    simp [syncStorageClasses, hlist]
  have hS := syncStorageClasses_spec env st1 l
  rw [hsc] at hS
  simp only at hS
  rw [hsc] at h4
  simp only at h4
  by_cases he : errs = []
  · rw [if_pos he] at h4
    exact absurd h4 (by simp)
  · rw [if_neg he] at h4
    have heq : Err.aggregate errs = e := by
      injection h4
    subst heq
    have hsync : sync env st = (st2, tr1 ++ tr2, Except.error (Err.aggregate errs)) := by
      unfold sync
      rw [h1, h2]
      simp only [ne_eq, not_true_eq_false, if_false, ite_false, hempty,
        Bool.false_eq_true, hL, hsc, if_neg he]
    refine ⟨?_, ?_, ?_, ?_, ?_⟩
    · rw [hsc]
      exact hS.1
    · rfl
    · exact he
    · rw [hsync]
    · rw [hsync]
      simp only
      rw [hS.2.2.1, hLs.1]

/-- Witness for C3: two concrete share types where the second apply fails;
both are attempted, the aggregate error is returned, and the conditions
are untouched. -/
theorem c3_partial_failure_aggregates_witness :
    itemNames (syncStorageClasses envPartialW (launchControllers envPartialW stEmptyW).1
        [shareW, { name := "fast" }]).2.1 = ["default", "fast"] ∧
    (sync envPartialW stEmptyW).2.2 = Except.error (Err.aggregate ["apply failed"]) ∧
    (sync envPartialW stEmptyW).1.conditions = stEmptyW.conditions := by
  have h := c3_partial_failure_aggregates envPartialW stEmptyW
    [shareW, { name := "fast" }] (Err.aggregate ["apply failed"]) rfl rfl (by simp) rfl
  exact ⟨h.1, h.2.2.2.1, h.2.2.2.2⟩

/-- C7: the launcher is an idempotent latch: over any run of syncs that all
read Managed and observe a non-empty share-type list, each of the k
dependent controllers is started exactly once with one worker; the running
flag ends true and is never reset, and once it is set no further sync
starts anything. -/
theorem c7_launcher_latch (k : Nat) (envs : List Env) (st : ClusterState)
    (hall : ∀ env ∈ envs, env.getState = Except.ok ("Managed") ∧
      (∃ l, env.probe = ProbeResult.ok l ∧ l ≠ []) ∧ env.csiControllers = k) :
    (st.controllersRunning = false → envs ≠ [] →
      starts (syncN envs st).2 = (List.range k).map (fun i => (i, 1)) ∧
      (syncN envs st).1.controllersRunning = true) ∧
    (st.controllersRunning = true →
      starts (syncN envs st).2 = [] ∧ (syncN envs st).1.controllersRunning = true) := by
  constructor
  · intro h0 hne
    cases envs with
    | nil => exact absurd rfl hne
    | cons env rest =>
      obtain ⟨hg, ⟨l, hp, hl⟩, hk⟩ := hall env (by simp)
      rcases hs : sync env st with ⟨st1, tr1, res⟩
      have hL := sync_launch env st l hg hp hl h0
      rw [hs] at hL
      simp only at hL
      rcases hr : syncN rest st1 with ⟨st2, tr2⟩
      have hR := syncN_running rest st1 hL.1
      rw [hr] at hR
      simp only at hR
      have hN : syncN (env :: rest) st = (st2, tr1 ++ tr2) := by
        simp [syncN, hs, hr]
      rw [hN]
      simp only
      rw [starts_append, hL.2, hR.2, hk]
      exact ⟨by simp, hR.1⟩
  · intro h1
    exact ⟨(syncN_running envs st h1).2, (syncN_running envs st h1).1⟩

/-- Witness for C7: three consecutive healthy syncs start the two
dependent controllers exactly once. -/
theorem c7_launcher_latch_witness :
    starts (syncN [envW, envW, envW] stEmptyW).2 = (List.range 2).map (fun i => (i, 1)) ∧
    (syncN [envW, envW, envW] stEmptyW).1.controllersRunning = true :=
  (c7_launcher_latch 2 [envW, envW, envW] stEmptyW (fun env hmem => by
      have he : env = envW := by simpa using hmem
      subst he
      exact ⟨rfl, ⟨[shareW], rfl, by simp⟩, rfl⟩)).1 rfl (by simp)

end Manila
